import Mathlib

/-!
# Verification of the EMS-Pred data pipeline and training loop

Shallow embedding of `Data_Container.py` (window generation, flow lookup,
split planning, normalization, dataset access) and `Model_Trainer.py`
(early-stopping validate loop, final denormalized evaluation), with theorems
settling the specification claims.

Conventions:
* numpy / torch arrays are `List`s along the axis the claims quantify over;
  the spatial (node/channel) axes are abstracted into the element type.
* Python integer indexing (negative indices wrap from the end, indices past
  either end raise `IndexError`) is modelled by `pythonGet`, which returns
  `none` exactly when Python raises.
* Python slicing `xs[a:b]` with non-negative bounds (clamping, never raising)
  is modelled by `pySlice`.
* A Python function that can raise is modelled as returning `Option`/`Except`.
* Scalars of the normalizer are real numbers (exact arithmetic); `np.std`
  takes a real square root, which is why that part of the development is
  `noncomputable`.  Everything indexing-related is over `ℕ`/`ℤ`/`ℚ` and
  executable.
-/

namespace EMSPred

/-- Python indexing `xs[i]` for `i : ℤ`: indices in `[0, len)` are direct,
indices in `[-len, 0)` wrap around to the end, anything else raises
(`none`). This is the behaviour of numpy arrays and torch tensors. -/
def pythonGet {α : Type*} (xs : List α) (i : ℤ) : Option α :=
  if 0 ≤ i then xs.get? i.toNat
  else if -(xs.length : ℤ) ≤ i then xs.get? ((xs.length : ℤ) + i).toNat
  else none

/-- Python slicing `xs[a:b]` for non-negative bounds: elements `a..b-1`,
clamped to the available range (never raises). -/
def pySlice {α : Type*} (xs : List α) (a b : ℕ) : List α :=
  (xs.take b).drop a

/-- Window-length configuration shared by `DataGenerator` and `EMSDataset`:
`serial_len`, `daily_len`, `weekly_len` (the `obs_len` tuple) and
`day_timesteps = 24 // dt` (called `rho` in `EMSDataset`). -/
structure Gen where
  serial_len : ℕ
  daily_len : ℕ
  weekly_len : ℕ
  day_timesteps : ℕ
deriving DecidableEq, Repr

/-- Model of `start_idx = max(serial_len, daily_len*day_timesteps,
weekly_len*day_timesteps*7)` as computed in `DataGenerator.get_feats`
(line 177) and recomputed in `EMSDataset.timestamp_query` (line 98). -/
def startIdx (g : Gen) : ℕ :=
  max g.serial_len (max (g.daily_len * g.day_timesteps)
    (g.weekly_len * g.day_timesteps * 7))

/-- Raw indices read by the loop of `DataGenerator.get_periodic_skip_seq`
for `p = 'daily'`: `p_steps = daily_len * day_timesteps` and the loop reads
`data[idx - p_steps*d]` for `d = 1 .. daily_len` (lines 188-190). -/
def dailyReadIndices (g : Gen) (idx : ℤ) : List ℤ :=
  (List.range' 1 g.daily_len).map
    (fun d : ℕ => idx - ((g.daily_len * g.day_timesteps : ℕ) : ℤ) * (d : ℤ))

/-- Raw indices read by the loop of `DataGenerator.get_periodic_skip_seq`
for `p = 'weekly'`: `p_steps = weekly_len * day_timesteps * 7` and the loop
reads `data[idx - p_steps*w]` for `w = 1 .. weekly_len` (lines 192-194). -/
def weeklyReadIndices (g : Gen) (idx : ℤ) : List ℤ :=
  (List.range' 1 g.weekly_len).map
    (fun w : ℕ => idx - ((g.weekly_len * g.day_timesteps * 7 : ℕ) : ℤ) * (w : ℤ))

/-- Model of `DataGenerator.get_periodic_skip_seq(data, idx, p)`
(lines 185-196): collects `data[idx - p_steps*k]` for `k = 1..len` at
Python indexing semantics, then reverses the collected list into
chronological order.  `daily = true` models `p = 'daily'`, `daily = false`
models `p = 'weekly'`.  Returns `none` when a read raises `IndexError`. -/
def get_periodic_skip_seq {α : Type*} (g : Gen) (data : List α) (idx : ℤ)
    (daily : Bool) : Option (List α) :=
  let idxs := if daily then dailyReadIndices g idx else weeklyReadIndices g idx
  (idxs.mapM (pythonGet data)).map List.reverse

/-- Model of `DataGenerator.get_feats(data)` (lines 175-183): for each
`i in range(start_idx, len(data))` collect the serial window
`data[i-serial_len : i]`, the daily and weekly periodic skip sequences, and
the target `data[i]`. -/
def get_feats {α : Type*} (g : Gen) (data : List α) :
    Option (List (List α) × List (List α) × List (List α) × List α) :=
  let idxs := List.range' (startIdx g) (data.length - startIdx g)
  do
    let daily ← idxs.mapM (fun i => get_periodic_skip_seq g data i true)
    let weekly ← idxs.mapM (fun i => get_periodic_skip_seq g data i false)
    let y ← idxs.mapM (fun i => data.get? i)
    let serial := idxs.map (fun i => pySlice data (i - g.serial_len) i)
    pure (serial, daily, weekly, y)

/-- Timestamps selected by `EMSDataset.timestamp_query` (lines 98-106), in
the order of the final window `P`: for each scale
`(t_len, factor) ∈ [(weekly_len, rho*7), (daily_len, rho), (serial_len, 1)]`
the loop collects `sample_y_time - t*factor` for `t = 1..t_len` and reverses
each scale's sub-list to chronological order before concatenation. -/
def queryTimestamps (g : Gen) (item : ℤ) : List ℤ :=
  let y := item + (startIdx g : ℤ)
  let scale := fun (tLen factor : ℕ) =>
    ((List.range' 1 tLen).map (fun t : ℕ => y - (factor : ℤ) * (t : ℤ))).reverse
  scale g.weekly_len (g.day_timesteps * 7) ++
    scale g.daily_len g.day_timesteps ++ scale g.serial_len 1

/-- Model of `EMSDataset.timestamp_query(flow, item)` (lines 94-107): looks
up `flow[timestamp % rho]` for each selected timestamp (`rho =
day_timesteps` is the length of one flow cycle).  Python `%` with a
positive modulus is `Int.emod`.  Returns `none` when a lookup raises. -/
def timestamp_query {γ : Type*} (g : Gen) (flow : List γ) (item : ℤ) :
    Option (List γ) :=
  (queryTimestamps g item).mapM
    (fun ts => flow.get? (ts % (g.day_timesteps : ℤ)).toNat)

/-- Chronological (weekly ++ daily ++ serial) sequence of raw series
indices read by the window generator for a sample with target index `i`:
each periodic scale's read indices (`get_periodic_skip_seq`) reversed to
chronological order, then the serial reads `i-serial_len .. i-1`, in the
concatenation order used by `EMSDataset.prepare_xy` (line 118). -/
def genChronIndices (g : Gen) (i : ℤ) : List ℤ :=
  (weeklyReadIndices g i).reverse ++ (dailyReadIndices g i).reverse ++
    ((List.range' 1 g.serial_len).map (fun t : ℕ => i - (t : ℤ))).reverse

/-! ## Split planning (`DataGenerator.date2len`, lines 147-157)

The code resolves date strings against
`pd.date_range('20170101', '20171231')` (the default `year=2017`, not a
leap year) and uses `.index(...)` to turn a date into its zero-based day
ordinal within the year.  We model a date as a `(month, day)` pair and the
`.index` call by `dayOrdinal`; lengths are integers (`ℤ`) so that the
Python arithmetic is preserved exactly, and `val_ratio` is a rational. -/

/-- Days in month `m` (1-12) of 2017, which is not a leap year. -/
def monthDays : ℕ → ℕ
  | 1 => 31 | 2 => 28 | 3 => 31 | 4 => 30 | 5 => 31 | 6 => 30
  | 7 => 31 | 8 => 31 | 9 => 30 | 10 => 31 | 11 => 30 | 12 => 31
  | _ => 0

/-- Zero-based ordinal of the date `(month, day)` inside the 2017 calendar:
models `date_range.index` for a date string present in the resolved year. -/
def dayOrdinal (md : ℕ × ℕ) : ℕ :=
  ((List.range' 1 (md.1 - 1)).map monthDays).sum + (md.2 - 1)

/-- Python `int()` on an exact rational: truncation toward zero. -/
def pythonInt (q : ℚ) : ℤ :=
  if 0 ≤ q then ⌊q⌋ else -⌊-q⌋

/-- The `mode_len` dictionary returned by `date2len`:
`{'train', 'validate', 'test'}` sample counts, in timestep units. -/
structure ZModeLen where
  train : ℤ
  validate : ℤ
  test : ℤ
deriving DecidableEq, Repr

/-- Model of `DataGenerator.date2len` (lines 147-157) for `year = 2017`:
`train_len = (train_e_idx + 1 - train_s_idx) * day_timesteps`,
`validate_len = int(train_len * val_ratio)` carved out of it, and
`test_len` from the test range; returns `(train_s_idx, mode_len)` where
`train_s_idx` is the day ordinal of the train start date and
`day_timesteps = 24 // dt`. -/
def date2len (dt : ℕ) (trainS trainE testS testE : ℕ × ℕ) (r : ℚ) :
    ℕ × ZModeLen :=
  let day_timesteps : ℕ := 24 / dt
  let train_s_idx := dayOrdinal trainS
  let train_e_idx := dayOrdinal trainE
  let train_len0 : ℤ := ((train_e_idx : ℤ) + 1 - (train_s_idx : ℤ)) *
    (day_timesteps : ℤ)
  let validate_len := pythonInt ((train_len0 : ℚ) * r)
  let train_len := train_len0 - validate_len
  let test_len : ℤ := ((dayOrdinal testE : ℤ) + 1 - (dayOrdinal testS : ℤ)) *
    (day_timesteps : ℤ)
  (train_s_idx, ⟨train_len, validate_len, test_len⟩)

/-! ## Normalization and data loading (`DataInput`, lines 8-65)

The stats `self._mean`, `self._std`, `self._min`, `self._max` are instance
attributes that exist only after the corresponding normalize call; reading
a missing attribute raises `AttributeError`.  `NormState` carries the four
optional attributes, a normalize call returns the updated state, and a
denormalize call returns `none` exactly when Python would raise.  Scalars
are reals because `np.std` is a real square root (exact arithmetic is not
computable there; everything else is plain field arithmetic). -/

/-- The `np.mean` of a list of reals. -/
noncomputable def mean (x : List ℝ) : ℝ :=
  x.sum / x.length

/-- The `np.std` of a list of reals: square root of the mean squared
deviation from the mean. -/
noncomputable def npStd (x : List ℝ) : ℝ :=
  Real.sqrt (mean (x.map (fun v => (v - mean x) ^ 2)))

/-- The `np.max` of a list (numpy raises on an empty array; the claims'
hypotheses exclude that case, so the junk value `0` is never reached). -/
def listMax : List ℝ → ℝ
  | [] => 0
  | h :: t => t.foldl max h

/-- The `np.min` of a list (same remark as `listMax`). -/
def listMin : List ℝ → ℝ
  | [] => 0
  | h :: t => t.foldl min h

/-- The optional fit statistics stored on a `DataInput` instance:
`_mean`/`_std` (set by `std_normalize`) and `_min`/`_max` (set by
`minmax_normalize`). -/
structure NormState where
  stMean : Option ℝ
  stStd : Option ℝ
  stMin : Option ℝ
  stMax : Option ℝ

/-- A freshly constructed `DataInput`: no stats stored yet. -/
def freshState : NormState :=
  ⟨none, none, none, none⟩

/-- Model of `DataInput.std_normalize` (lines 57-61): stores mean/std and
returns `(x - mean) / std`. -/
noncomputable def std_normalize (st : NormState) (x : List ℝ) :
    NormState × List ℝ :=
  ({ st with stMean := some (mean x), stStd := some (npStd x) },
    x.map (fun v => (v - mean x) / npStd x))

/-- Model of `DataInput.std_denormalize` (lines 63-65): `x * std + mean`
with the stored stats; `none` models the `AttributeError` raised when no
standardization stats were ever stored. -/
noncomputable def std_denormalize (st : NormState) (x : List ℝ) :
    Option (List ℝ) :=
  match st.stMean, st.stStd with
  | some mu, some sigma => some (x.map (fun v => v * sigma + mu))
  | _, _ => none

/-- Model of `DataInput.minmax_normalize` (lines 45-50): stores min/max and
returns `2 * (x - min)/(max - min) - 1`. -/
noncomputable def minmax_normalize (st : NormState) (x : List ℝ) :
    NormState × List ℝ :=
  ({ st with stMin := some (listMin x), stMax := some (listMax x) },
    x.map (fun v => 2 * ((v - listMin x) / (listMax x - listMin x)) - 1))

/-- Model of `DataInput.minmax_denormalize` (lines 52-55):
`(max - min) * (x + 1)/2 + min` with the stored stats; `none` models the
`AttributeError` when no min-max stats were stored. -/
noncomputable def minmax_denormalize (st : NormState) (x : List ℝ) :
    Option (List ℝ) :=
  match st.stMax, st.stMin with
  | some hi, some lo => some (x.map (fun v => (hi - lo) * ((v + 1) / 2) + lo))
  | _, _ => none

/-- The named arrays of the input `.npz` archive.  `flow` is one cycle of
snapshots; per cycle position we keep the list over mobility groups (the
spatial axes are abstracted away). -/
structure Npz where
  ems : List ℝ
  meta : List ℝ
  flow : List (List ℝ)
  neighbor_adj : List ℝ
  trans_adj : List ℝ
  semantic_adj : List ℝ

/-- The dictionary assembled by `DataInput.load_data`. -/
structure Dataset where
  ems : List ℝ
  meta : List ℝ
  flow : Option (List (List ℝ))
  neighbor_adj : Option (List ℝ)
  trans_adj : Option (List ℝ)
  semantic_adj : Option (List ℝ)

/-- Model of `DataInput.load_data` (lines 14-43), with `M_dyn`/`M_sta` the
two configuration ordinals.  The normalize side effect on the instance is
returned as the first component (it happens before any validity check);
`Except.error ()` models the `raise ValueError` on `M_dyn` outside
`{0, 1, 2}` (line 32) and on `M_sta >= 4` (line 41).  For `M_dyn = 1` the
flow groups are summed (`keepdims` keeps a singleton axis); for `M_dyn = 2`
the first `M_dyn` groups are kept. -/
noncomputable def load_data (M_dyn M_sta : ℤ) (norm_opt : Bool) (npz : Npz)
    (st : NormState) : NormState × Except Unit Dataset :=
  let p := if norm_opt then std_normalize st npz.ems else (st, npz.ems)
  let flowE : Except Unit (Option (List (List ℝ))) :=
    if M_dyn = 0 then Except.ok none
    else if M_dyn = 1 then Except.ok (some (npz.flow.map (fun r => [r.sum])))
    else if M_dyn = 2 then
      Except.ok (some (npz.flow.map (fun r => r.take M_dyn.toNat)))
    else Except.error ()
  (p.1,
    match flowE with
    | Except.error e => Except.error e
    | Except.ok flow =>
      let neighbor := if 1 ≤ M_sta then some npz.neighbor_adj else none
      let transA := if 2 ≤ M_sta then some npz.trans_adj else none
      let semanticA := if 3 ≤ M_sta then some npz.semantic_adj else none
      if 4 ≤ M_sta then Except.error ()
      else Except.ok ⟨p.2, npz.meta, flow, neighbor, transA, semanticA⟩)

/-- Model of the denormalization step of `ModelTrainer.test`
(lines 107-108): the per-batch ground truths and predictions are
concatenated along the sample axis and `data_class.std_denormalize` is
applied to both — unconditionally, whatever normalization (if any) was
configured at load time. -/
noncomputable def testEval (st : NormState)
    (prediction ground_truth : List (List ℝ)) :
    Option (List ℝ × List ℝ) := do
  let g ← std_denormalize st ground_truth.flatten
  let p ← std_denormalize st prediction.flatten
  pure (g, p)

/-! ## Sample store (`EMSDataset`, lines 68-135)

`prepare_xy` concatenates the per-scale windowed arrays along the window
axis and slices out this mode's rows; `__len__` returns the configured
`mode_len[mode]`; `__getitem__` indexes the sliced tensors (and resolves
the flow window lazily).  Each windowed array is a list of samples, each
sample a list of window positions (spatial axes abstracted away). -/

/-- The `mode` string of `EMSDataset`. -/
inductive Mode where
  | train
  | validate
  | test
deriving DecidableEq, Repr

/-- The `mode_len` dictionary as consumed by `EMSDataset` (sample counts). -/
structure ModeLenN where
  train : ℕ
  validate : ℕ
  test : ℕ
deriving DecidableEq, Repr

/-- Look up one mode's length in the `mode_len` dictionary. -/
def ModeLenN.get (ml : ModeLenN) : Mode → ℕ
  | Mode.train => ml.train
  | Mode.validate => ml.validate
  | Mode.test => ml.test

/-- The start-index shift of `EMSDataset.prepare_xy` (lines 110-115):
train starts at the given `start_idx`, validate after the train split,
test after train and validate. -/
def sliceStart (mode : Mode) (ml : ModeLenN) (start_idx : ℕ) : ℕ :=
  match mode with
  | Mode.train => start_idx
  | Mode.validate => start_idx + ml.train
  | Mode.test => start_idx + ml.train + ml.validate

/-- The `feat_dict` handed to `EMSDataset`: windowed observation and
metadata arrays per scale (each `List` of samples, each sample a `List` of
window positions) plus the raw periodic flow tensor when present. -/
structure FeatDict (α γ : Type*) where
  weekly : List (List α)
  daily : List (List α)
  serial : List (List α)
  weekly_meta : List (List α)
  daily_meta : List (List α)
  serial_meta : List (List α)
  flow : Option (List γ)

/-- Concatenation of windowed arrays along the window axis (numpy
`np.concatenate(..., axis=1)` over same-sample-count arrays). -/
def concatRows {α : Type*} : List (List (List α)) → List (List α)
  | [] => []
  | [a] => a
  | a :: rest => List.zipWith (· ++ ·) a (concatRows rest)

/-- The `len(inputs[kw].shape) != 2` guard of lines 119-122: in numpy an
array of zero-length windows collapses to shape `(n, 0)` (dim 2) and is
skipped.  In this flattened model that is exactly an array whose windows
are all empty; skipping it agrees with numpy for non-empty windows, and
also where numpy would keep a `(n, 0, N, C)` array, concatenating zero
window positions is the same as skipping. -/
def keepFeat {α : Type*} (arr : List (List α)) : Bool :=
  !arr.all (fun r => r.isEmpty)

/-- The tensors an `EMSDataset` instance holds after `prepare_xy`:
per-split sliced sequences, the raw flow tensor, the window configuration
and this mode's configured length (`mode_len[mode]`). -/
structure EMSData (α γ : Type*) where
  x_seq : List (List α)
  meta_seq : List (List α)
  output : List α
  flow : Option (List γ)
  g : Gen
  length : ℕ
deriving DecidableEq

/-- Model of `EMSDataset.prepare_xy` (lines 109-135): shift the start index
by the preceding splits' lengths, drop degenerate (empty-window) scales,
concatenate the remaining scales along the window axis, and slice out
`[start : start + mode_len[mode]]` of samples, observations, metadata and
targets.  The flow tensor is stored raw. -/
def prepare_xy {α γ : Type*} (g : Gen) (mode : Mode) (ml : ModeLenN)
    (start_idx : ℕ) (f : FeatDict α γ) (output : List α) : EMSData α γ :=
  let start := sliceStart mode ml start_idx
  let L := ml.get mode
  let obs := [f.weekly, f.daily, f.serial].filter keepFeat
  let metas := [f.weekly_meta, f.daily_meta, f.serial_meta].filter keepFeat
  { x_seq := pySlice (concatRows obs) start (start + L)
    meta_seq := pySlice (concatRows metas) start (start + L)
    output := pySlice output start (start + L)
    flow := f.flow
    g := g
    length := L }

/-- Model of `EMSDataset.__len__` (lines 87-88): the configured
`mode_len[mode]`, regardless of how many samples the sliced tensors
actually hold. -/
def lenDS {α γ : Type*} (ds : EMSData α γ) : ℕ :=
  ds.length

/-- Indexing of the three per-mode tensors by `__getitem__` (lines 91-92):
`x_seq[item]`, `meta_seq[item]`, `output[item]` at Python indexing
semantics, with the already-resolved flow window `dp` in third position of
the returned tuple. -/
def sampleAt {α γ : Type*} (xs ms : List (List α)) (ys : List α)
    (dp : Option (List γ)) (i : ℤ) :
    Option (List α × List α × Option (List γ) × α) :=
  (pythonGet xs i).bind (fun x =>
    (pythonGet ms i).bind (fun m =>
      (pythonGet ys i).bind (fun y =>
        some (x, m, dp, y))))

/-- Model of `EMSDataset.__getitem__` (lines 90-92): resolve the flow
window when flow data is present, then index the sliced tensors at `item`
(Python indexing).  `none` models a raised `IndexError`. -/
def getItem {α γ : Type*} (ds : EMSData α γ) (item : ℤ) :
    Option (List α × List α × Option (List γ) × α) :=
  let dynPOpt : Option (Option (List γ)) :=
    match ds.flow with
    | none => some none
    | some fl => (timestamp_query ds.g fl item).map some
  dynPOpt.bind (fun dynP => sampleAt ds.x_seq ds.meta_seq ds.output dynP item)

/-! ## Training loop (`Model_Trainer.py`, `ModelTrainer.train`, lines 34-83)

Per epoch the validate pass computes the mean validate loss
`running_loss['validate'] / step`; the loop state that the claims are about
is the best loss seen so far (`val_loss`, initially `np.inf`), the epoch
recorded in the best checkpoint (initially `0`, line 36), and the
early-stop counter (the `early_stopper` argument, default `10`).  We model
one epoch by its mean validate loss (a rational, for exact arithmetic) and
run the loop over the list of epoch losses. -/

/-- Outcome of `ModelTrainer.train`: the epoch at which early stopping
returned (or `none` if the full epoch budget ran), the epoch stored in the
saved best checkpoint, the best validate loss seen (`none` = `np.inf`), and
the final value of the early-stop counter. -/
structure TrainOutcome where
  early_stop_epoch : Option ℕ
  checkpoint_epoch : ℕ
  best : Option ℚ
  counter : ℤ
deriving DecidableEq, Repr

/-- The comparison on line 66: `running_loss/step <= val_loss`, where
`val_loss` starts as `np.inf` (every loss compares `≤ np.inf`). -/
def improves (L : ℚ) : Option ℚ → Bool
  | none => true
  | some b => decide (L ≤ b)

/-- The epoch loop of `ModelTrainer.train` (lines 40-78), restricted to the
validate-pass bookkeeping: on (non-strict) improvement the best loss, the
checkpoint and the counter are updated — the counter is reset to the
literal `10` of line 72, not to the `early_stopper` argument — otherwise
the counter is decremented and the loop returns as soon as it hits `0`
(lines 75-78). -/
def trainGo : List ℚ → ℕ → Option ℚ → ℕ → ℤ → TrainOutcome
  | [], _, best, ckpt, ctr => ⟨none, ckpt, best, ctr⟩
  | L :: rest, epoch, best, ckpt, ctr =>
    if improves L best then
      trainGo rest (epoch + 1) (some L) epoch 10
    else if ctr - 1 = 0 then ⟨some epoch, ckpt, best, ctr - 1⟩
    else trainGo rest (epoch + 1) best ckpt (ctr - 1)

/-- Model of `ModelTrainer.train` over a list of mean validate losses (one
per epoch, epochs numbered from `1`), with the configured patience (the
`early_stopper` argument). -/
def train (losses : List ℚ) (patience : ℤ) : TrainOutcome :=
  trainGo losses 1 none 0 patience

/-! ## Supporting lemmas -/

/-- Successful `Option`-monadic `mapM` preserves length. -/
theorem optionMapM_length {α β : Type*} :
    ∀ {l : List α} {f : α → Option β} {res : List β},
      l.mapM f = some res → res.length = l.length
  | [], _, res, h => by
      simp only [List.mapM_nil, pure, Option.some.injEq] at h
      simp [← h]
  | a :: l, f, res, h => by
      simp only [List.mapM_cons] at h
      cases hfa : f a with
      | none => rw [hfa] at h; simp [Option.bind] at h
      | some b =>
        rw [hfa] at h
        cases hrest : l.mapM f with
        | none => rw [hrest] at h; simp [Option.bind] at h
        | some bs =>
          rw [hrest] at h
          simp only [Option.bind_eq_bind, Option.some_bind, pure,
            Option.some.injEq] at h
          have ih := optionMapM_length (f := f) hrest
          simp [← h, ih]

/-- An `Option`-monadic `mapM` succeeds when `f` succeeds on every
element. -/
theorem optionMapM_isSome {α β : Type*} :
    ∀ {l : List α} {f : α → Option β},
      (∀ a ∈ l, (f a).isSome = true) → (l.mapM f).isSome = true
  | [], _, _ => by
      rw [List.mapM_nil]
      rfl
  | a :: l, f, h => by
      have ha : (f a).isSome = true := h a (List.mem_cons_self a l)
      obtain ⟨b, hb⟩ := Option.isSome_iff_exists.mp ha
      have hrest : (l.mapM f).isSome = true :=
        optionMapM_isSome (fun x hx => h x (List.mem_cons_of_mem a hx))
      obtain ⟨bs, hbs⟩ := Option.isSome_iff_exists.mp hrest
      rw [List.mapM_cons, hb, hbs]
      rfl

/-- Python indexing succeeds on a direct in-range index. -/
theorem pythonGet_isSome_pos {α : Type*} (xs : List α) (i : ℤ) (h0 : 0 ≤ i)
    (hlt : i < (xs.length : ℤ)) : (pythonGet xs i).isSome = true := by
  rw [pythonGet, if_pos h0]
  cases h : xs.get? i.toNat with
  | none => rw [List.get?_eq_none] at h; omega
  | some v => simp

/-- Python indexing raises at or past the length. -/
theorem pythonGet_none_ge {α : Type*} (xs : List α) (i : ℤ)
    (h : (xs.length : ℤ) ≤ i) : pythonGet xs i = none := by
  have h0 : 0 ≤ i := le_trans (Int.natCast_nonneg _) h
  rw [pythonGet, if_pos h0, List.get?_eq_none]
  omega

/-- Python indexing succeeds (wrapping to the end) on a negative index
within one length of the end. -/
theorem pythonGet_isSome_neg {α : Type*} (xs : List α) (i : ℤ)
    (hge : -(xs.length : ℤ) ≤ i) (hlt : i < 0) :
    (pythonGet xs i).isSome = true := by
  rw [pythonGet, if_neg (by omega), if_pos hge]
  cases h : xs.get? ((xs.length : ℤ) + i).toNat with
  | none => rw [List.get?_eq_none] at h; omega
  | some v => simp

/-- Python indexing raises below `-length`. -/
theorem pythonGet_none_below {α : Type*} (xs : List α) (i : ℤ)
    (h : i < -(xs.length : ℤ)) : pythonGet xs i = none := by
  rw [pythonGet, if_neg (by omega), if_neg (by omega)]

/-- The flow lookup succeeds for every sample index whenever the cycle
length is positive and the flow tensor holds at least one full cycle: every
modulo-reduced timestamp lands inside the cycle. -/
theorem timestamp_query_isSome {γ : Type*} (g : Gen) (fl : List γ)
    (item : ℤ) (hrho : 0 < g.day_timesteps)
    (hlen : g.day_timesteps ≤ fl.length) :
    (timestamp_query g fl item).isSome = true := by
  apply optionMapM_isSome
  intro ts _
  have hpos : (0 : ℤ) < (g.day_timesteps : ℤ) := by exact_mod_cast hrho
  have h1 : 0 ≤ ts % (g.day_timesteps : ℤ) := Int.emod_nonneg ts (by omega)
  have h2 : ts % (g.day_timesteps : ℤ) < (g.day_timesteps : ℤ) :=
    Int.emod_lt_of_pos ts hpos
  cases h : fl.get? (ts % (g.day_timesteps : ℤ)).toNat with
  | none => rw [List.get?_eq_none] at h; omega
  | some v => simp

/-- Tensor indexing with Python semantics, for tensors holding exactly `L`
samples: succeeds on `[0, L)`, raises at or past `L`, wraps (succeeds) on
`[-L, 0)`, raises below `-L`. -/
theorem sampleAt_access {α γ : Type*} (xs ms : List (List α)) (ys : List α)
    (dp : Option (List γ)) (L : ℕ) (i : ℤ)
    (hx : xs.length = L) (hm : ms.length = L) (hy : ys.length = L) :
    (0 ≤ i → i < (L : ℤ) → (sampleAt xs ms ys dp i).isSome = true) ∧
    ((L : ℤ) ≤ i → sampleAt xs ms ys dp i = none) ∧
    (-(L : ℤ) ≤ i → i < 0 → (sampleAt xs ms ys dp i).isSome = true) ∧
    (i < -(L : ℤ) → sampleAt xs ms ys dp i = none) := by
  refine ⟨?_, ?_, ?_, ?_⟩
  · intro h0 hlt
    obtain ⟨x, hxv⟩ := Option.isSome_iff_exists.mp
      (pythonGet_isSome_pos xs i h0 (by rw [hx]; exact hlt))
    obtain ⟨m, hmv⟩ := Option.isSome_iff_exists.mp
      (pythonGet_isSome_pos ms i h0 (by rw [hm]; exact hlt))
    obtain ⟨y, hyv⟩ := Option.isSome_iff_exists.mp
      (pythonGet_isSome_pos ys i h0 (by rw [hy]; exact hlt))
    simp [sampleAt, hxv, hmv, hyv]
  · intro hge
    rw [sampleAt, pythonGet_none_ge xs i (by rw [hx]; exact hge)]
    rfl
  · intro hge hlt
    obtain ⟨x, hxv⟩ := Option.isSome_iff_exists.mp
      (pythonGet_isSome_neg xs i (by rw [hx]; exact hge) hlt)
    obtain ⟨m, hmv⟩ := Option.isSome_iff_exists.mp
      (pythonGet_isSome_neg ms i (by rw [hm]; exact hge) hlt)
    obtain ⟨y, hyv⟩ := Option.isSome_iff_exists.mp
      (pythonGet_isSome_neg ys i (by rw [hy]; exact hge) hlt)
    simp [sampleAt, hxv, hmv, hyv]
  · intro hbelow
    rw [sampleAt, pythonGet_none_below xs i (by rw [hx]; exact hbelow)]
    rfl

/-- The flow-window resolver always selects `weekly_len + daily_len +
serial_len` timestamps, so a successfully resolved flow window has exactly
that many positions along the window axis. -/
theorem timestamp_query_length {γ : Type*} (g : Gen) (flow : List γ)
    (item : ℤ) (P : List γ) (h : timestamp_query g flow item = some P) :
    P.length = g.weekly_len + g.daily_len + g.serial_len := by
  have hlen := optionMapM_length h
  rw [hlen]
  simp only [queryTimestamps, List.length_append, List.length_reverse,
    List.length_map, List.length_range']

/-! ## Claim theorems -/

/-- C1: refuted at a concrete input.  With `serial_len = 1`, `daily_len = 2`,
`weekly_len = 0`, `day_timesteps = 1` and the series `0..9`, the generator
emits the sample at `i = start_idx = 2`, but the daily loop of
`get_periodic_skip_seq` reads raw indices `[0, -2]`: the read at `-2` is
negative and wraps around to the end of the array (element `8`, at index
`8 ≥ i`), so the returned daily window is `[8, 0]`.  This contradicts the
claim that every read for an emitted `i ≥ start_idx` lies at a non-negative
index strictly below `i` with no wraparound. -/
theorem C1_daily_read_wraps_at_start_idx :
    startIdx ⟨1, 2, 0, 1⟩ = 2 ∧
    dailyReadIndices ⟨1, 2, 0, 1⟩ 2 = [0, -2] ∧
    get_periodic_skip_seq ⟨1, 2, 0, 1⟩ (List.range 10) 2 true =
      some [8, 0] := by
  decide

/-- C2: refuted at a concrete input.  With `serial_len = 1`, `daily_len = 2`,
`weekly_len = 0`, `day_timesteps = p = 2` and the synthetic series `0..11`,
the first emitted sample is `i = start_idx = 4`; the generated daily window
is `[8, 0]`, whose last element is `0 = series[i - daily_len*p]` (and whose
first element comes from a wrapped read), while the claim requires the last
element to be `series[i - p] = series[2] = 2`. -/
theorem C2_daily_window_last_element_wrong :
    startIdx ⟨1, 2, 0, 2⟩ = 4 ∧
    get_periodic_skip_seq ⟨1, 2, 0, 2⟩ (List.range 12) 4 true =
      some [8, 0] ∧
    (List.range 12).get? 2 = some 2 := by
  decide

/-- C3: the flow-window resolver does return `weekly_len + daily_len +
serial_len` positions (the length half of the claim, also proved in general
as `timestamp_query_length`), but its chronological time offsets do not
coincide with the window generator's.  With `serial_len = 1`,
`daily_len = 2`, `weekly_len = 0`, `day_timesteps = 1` and sample index `0`
(target time `y = 2`), the resolver selects chronological timestamps
`[0, 1, 1]` (daily stride `rho`), while the generator reads chronological
indices `[-2, 0, 1]` (daily stride `daily_len * rho`): the two disagree. -/
theorem C3_resolver_length_but_offsets_differ :
    (timestamp_query ⟨1, 2, 0, 1⟩ [37] 0).map List.length = some 3 ∧
    queryTimestamps ⟨1, 2, 0, 1⟩ 0 = [0, 1, 1] ∧
    genChronIndices ⟨1, 2, 0, 1⟩ (0 + (startIdx ⟨1, 2, 0, 1⟩ : ℤ)) =
      [-2, 0, 1] ∧
    queryTimestamps ⟨1, 2, 0, 1⟩ 0 ≠
      genChronIndices ⟨1, 2, 0, 1⟩ (0 + (startIdx ⟨1, 2, 0, 1⟩ : ℤ)) := by
  decide

/-- C4: refuted at the spec's own example.  With configured patience `3`
and epoch validate losses `[5,4,4,6,7,7,7,7,7,7]`, the claim (counter reset
to the configured patience on improvement) implies early stopping at epoch
6, the third consecutive non-improving epoch after the best epoch 3.  The
code instead resets the counter to the literal `10` (line 72), so it never
stops early within the 10-epoch budget: the run ends with no early stop,
checkpoint at the best epoch 3 (tie at loss 4 counted as improvement) and
counter `3`. -/
theorem C4_early_stop_counter_reset_to_literal_ten :
    train [5, 4, 4, 6, 7, 7, 7, 7, 7, 7] 3 = ⟨none, 3, some 4, 3⟩ := by
  decide

/-- C5: refuted at a concrete input.  With `dt = 12` (so `day_timesteps =
2`) and a train range starting January 2nd (day ordinal `1`), `date2len`
returns the global start offset `1` — the bare day ordinal — whereas the
claim requires the offset in timestep units, `dayOrdinal * day_timesteps =
2`.  The per-split part of the claim does hold: `prepare_xy` starts the
train split at the offset, validate at offset + train_len and test at
offset + train_len + validate_len (last three conjuncts, with offset `1`
and mode lengths `{train 4, validate 2, test 3}`). -/
theorem C5_global_offset_is_day_ordinal_not_timesteps :
    (date2len 12 (1, 2) (1, 31) (2, 1) (2, 28) 0).1 = 1 ∧
    dayOrdinal (1, 2) * (24 / 12) = 2 ∧
    sliceStart Mode.train ⟨4, 2, 3⟩ 1 = 1 ∧
    sliceStart Mode.validate ⟨4, 2, 3⟩ 1 = 5 ∧
    sliceStart Mode.test ⟨4, 2, 3⟩ 1 = 7 := by
  decide

/-- C6: for any timestep width, calendar date ranges (start not after end
for the train range) and non-negative validation ratio, `date2len` computes
the nominal train length as the inclusive day span of the train range times
`day_timesteps = 24 // dt`, carves `validate_len = ⌊nominal * ratio⌋` out
of it, and returns a `test_len` computed from the test range's inclusive
day span alone — independent of the ratio (second conjunct). -/
theorem C6_split_lengths_from_day_spans (dt : ℕ) (tS tE sS sE : ℕ × ℕ)
    (r : ℚ) (hr : 0 ≤ r) (hspan : dayOrdinal tS ≤ dayOrdinal tE) :
    (date2len dt tS tE sS sE r).2 =
      ⟨((dayOrdinal tE : ℤ) + 1 - (dayOrdinal tS : ℤ)) * ((24 / dt : ℕ) : ℤ) -
          ⌊((((dayOrdinal tE : ℤ) + 1 - (dayOrdinal tS : ℤ)) *
            ((24 / dt : ℕ) : ℤ) : ℤ) : ℚ) * r⌋,
        ⌊((((dayOrdinal tE : ℤ) + 1 - (dayOrdinal tS : ℤ)) *
            ((24 / dt : ℕ) : ℤ) : ℤ) : ℚ) * r⌋,
        ((dayOrdinal sE : ℤ) + 1 - (dayOrdinal sS : ℤ)) *
          ((24 / dt : ℕ) : ℤ)⟩ ∧
    ∀ q : ℚ, (date2len dt tS tE sS sE q).2.test =
      (date2len dt tS tE sS sE r).2.test := by
  have hn : (0 : ℤ) ≤ ((dayOrdinal tE : ℤ) + 1 - (dayOrdinal tS : ℤ)) *
      ((24 / dt : ℕ) : ℤ) := by
    apply mul_nonneg
    · have : (dayOrdinal tS : ℤ) ≤ (dayOrdinal tE : ℤ) := by
        exact_mod_cast hspan
      omega
    · exact Int.natCast_nonneg _
  have hq : (0 : ℚ) ≤ ((((dayOrdinal tE : ℤ) + 1 - (dayOrdinal tS : ℤ)) *
      ((24 / dt : ℕ) : ℤ) : ℤ) : ℚ) * r := by
    apply mul_nonneg
    · exact_mod_cast hn
    · exact hr
  refine ⟨?_, fun q => rfl⟩
  simp only [date2len, pythonInt]
  rw [if_pos hq]

/-- Witness for C6 at `dt = 12`, train range January 1-10, test range
February 1-2 and ratio `1/10`: nominal train length `20`, validate `2`,
train `18`, test `4`. -/
theorem C6_split_lengths_from_day_spans_witness :
    (0 : ℚ) ≤ 1 / 10 ∧ dayOrdinal (1, 1) ≤ dayOrdinal (1, 10) ∧
    (date2len 12 (1, 1) (1, 10) (2, 1) (2, 2) (1 / 10)).2 = ⟨18, 2, 4⟩ := by
  refine ⟨by norm_num, by decide, ?_⟩
  have h := (C6_split_lengths_from_day_spans 12 (1, 1) (1, 10) (2, 1) (2, 2)
    (1 / 10) (by norm_num) (by decide)).1
  have h9 : dayOrdinal (1, 10) = 9 := by decide
  have h0 : dayOrdinal (1, 1) = 0 := by decide
  have h31 : dayOrdinal (2, 1) = 31 := by decide
  have h32 : dayOrdinal (2, 2) = 32 := by decide
  rw [h]
  simp only [h9, h0, h31, h32, ZModeLen.mk.injEq]
  norm_num

/-- C7: in exact arithmetic, whenever the standard deviation of `x` is
non-zero, destandardizing the standardized array with the stored stats
reproduces `x` exactly; and whenever `max x ≠ min x`, the min-max inverse
applied to the min-max normalization of `x` reproduces `x` exactly. -/
theorem C7_normalize_denormalize_roundtrip :
    (∀ (st : NormState) (x : List ℝ), npStd x ≠ 0 →
        std_denormalize (std_normalize st x).1 (std_normalize st x).2 =
          some x) ∧
    (∀ (st : NormState) (x : List ℝ), listMax x ≠ listMin x →
        minmax_denormalize (minmax_normalize st x).1
          (minmax_normalize st x).2 = some x) := by
  constructor
  · intro st x hs
    simp only [std_normalize, std_denormalize, List.map_map]
    have hfun : ((fun v => v * npStd x + mean x) ∘
        (fun v => (v - mean x) / npStd x)) = id := by
      funext v
      simp only [Function.comp_apply, id_eq]
      rw [div_mul_cancel₀ _ hs, sub_add_cancel]
    rw [hfun, List.map_id]
  · intro st x hmm
    have hne : listMax x - listMin x ≠ 0 := sub_ne_zero.mpr hmm
    simp only [minmax_normalize, minmax_denormalize, List.map_map]
    have hfun : ((fun v => (listMax x - listMin x) * ((v + 1) / 2) + listMin x) ∘
        (fun v => 2 * ((v - listMin x) / (listMax x - listMin x)) - 1)) =
        id := by
      funext v
      simp only [Function.comp_apply, id_eq]
      field_simp
      ring
    rw [hfun, List.map_id]

/-- Witness for C7 at `x = [0, 2]`: mean `1`, std `√1 = 1 ≠ 0`, max `2 ≠ 0 =
min`, and both round trips reproduce `[0, 2]`. -/
theorem C7_normalize_denormalize_roundtrip_witness :
    npStd [(0 : ℝ), 2] ≠ 0 ∧ listMax [(0 : ℝ), 2] ≠ listMin [(0 : ℝ), 2] ∧
    std_denormalize (std_normalize freshState [(0 : ℝ), 2]).1
      (std_normalize freshState [(0 : ℝ), 2]).2 = some [(0 : ℝ), 2] ∧
    minmax_denormalize (minmax_normalize freshState [(0 : ℝ), 2]).1
      (minmax_normalize freshState [(0 : ℝ), 2]).2 = some [(0 : ℝ), 2] := by
  have hm : mean [(0 : ℝ), 2] = 1 := by
    norm_num [mean]
  have hs : npStd [(0 : ℝ), 2] = 1 := by
    simp only [npStd, hm, List.map_cons, List.map_nil]
    norm_num [mean]
  have hs1 : npStd [(0 : ℝ), 2] ≠ 0 := by
    rw [hs]
    norm_num
  have hmm : listMax [(0 : ℝ), 2] ≠ listMin [(0 : ℝ), 2] := by
    simp only [listMax, listMin, List.foldl]
    rw [max_eq_right (by norm_num : (0 : ℝ) ≤ 2),
      min_eq_left (by norm_num : (0 : ℝ) ≤ 2)]
    norm_num
  exact ⟨hs1, hmm,
    (C7_normalize_denormalize_roundtrip).1 freshState [(0 : ℝ), 2] hs1,
    (C7_normalize_denormalize_roundtrip).2 freshState [(0 : ℝ), 2] hmm⟩

/-- C8: for every dynamic-mobility level outside `{0, 1, 2}` and every
static-adjacency level `≥ 4`, `load_data` raises `ValueError`
(`Except.error`) and returns no dataset, for every input archive, stats
state and normalization option: no invalid level is silently defaulted. -/
theorem C8_invalid_config_levels_raise (M_dyn M_sta : ℤ) (norm_opt : Bool)
    (npz : Npz) (st : NormState)
    (h : ¬(M_dyn = 0 ∨ M_dyn = 1 ∨ M_dyn = 2) ∨ 4 ≤ M_sta) :
    (load_data M_dyn M_sta norm_opt npz st).2 = Except.error () := by
  rcases h with h | h
  · have h0 : ¬M_dyn = 0 := fun hh => h (Or.inl hh)
    have h1 : ¬M_dyn = 1 := fun hh => h (Or.inr (Or.inl hh))
    have h2 : ¬M_dyn = 2 := fun hh => h (Or.inr (Or.inr hh))
    simp [load_data, h0, h1, h2]
  · by_cases h0 : M_dyn = 0
    · simp [load_data, h0, h]
    · by_cases h1 : M_dyn = 1
      · simp [load_data, h0, h1, h]
      · by_cases h2 : M_dyn = 2
        · simp [load_data, h0, h1, h2, h]
        · simp [load_data, h0, h1, h2]

/-- Witness for C8: dynamic-mobility level `3` (static level `0`, no
normalization, empty archive) raises at load time. -/
theorem C8_invalid_config_levels_raise_witness :
    (¬((3 : ℤ) = 0 ∨ (3 : ℤ) = 1 ∨ (3 : ℤ) = 2) ∨ (4 : ℤ) ≤ 0) ∧
    (load_data 3 0 false ⟨[], [], [], [], [], []⟩ freshState).2 =
      Except.error () := by
  refine ⟨Or.inl (by decide), ?_⟩
  exact C8_invalid_config_levels_raise 3 0 false ⟨[], [], [], [], [], []⟩
    freshState (Or.inl (by decide))

/-- C10: the final evaluation pass applies `std_denormalize` (the
standardization inverse `x * std + mean`) unconditionally.  Loading with
`norm_opt = False` leaves the stats state untouched (first conjunct), and
with no stored standardization stats — whether because normalization was
disabled or because only min-max normalization was performed — the
denormalize call of the evaluation pass fails (`none`, the
`AttributeError`) rather than producing rescaled metrics (second and third
conjuncts).  When standardization stats are stored, the evaluation pass
returns exactly the std inverse of the concatenated ground truth and
predictions, regardless of the min-max fields (fourth conjunct). -/
theorem C10_test_applies_std_inverse_unconditionally :
    (∀ (M_dyn M_sta : ℤ) (npz : Npz),
        (load_data M_dyn M_sta false npz freshState).1 = freshState) ∧
    (∀ prediction ground_truth : List (List ℝ),
        testEval freshState prediction ground_truth = none) ∧
    (∀ (x : List ℝ) (prediction ground_truth : List (List ℝ)),
        testEval (minmax_normalize freshState x).1 prediction ground_truth =
          none) ∧
    (∀ (mu sigma : ℝ) (lo hi : Option ℝ)
        (prediction ground_truth : List (List ℝ)),
        testEval ⟨some mu, some sigma, lo, hi⟩ prediction ground_truth =
          some (ground_truth.flatten.map (fun v => v * sigma + mu),
            prediction.flatten.map (fun v => v * sigma + mu))) :=
  ⟨fun _ _ _ => rfl, fun _ _ => rfl, fun _ _ _ => rfl,
    fun _ _ _ _ _ _ => rfl⟩

/-- C9, counterexample: two concrete splits built by `prepare_xy` from a
one-sample windowed input (weekly scale empty, daily window `[20]`, serial
window `[10]`, metadata `[2]`/`[1]`, target `5`, no flow).  With configured
length 1, `get(-1)` succeeds by Python negative-index wraparound even
though `-1` is outside `[0, length())` — retrieval does not fail for every
out-of-range index.  With configured length 2 (more than the data can
fill), `length()` still reports 2 but `get(1)` fails even though
`0 ≤ 1 < length()` — retrieval does not succeed on all of the claimed
range. -/
theorem C9_access_contract_counterexample :
    lenDS (prepare_xy (⟨1, 1, 0, 1⟩ : Gen) Mode.train ⟨1, 0, 0⟩ 0
      (⟨[[]], [[20]], [[10]], [[]], [[2]], [[1]], none⟩ : FeatDict ℕ ℕ)
      [5]) = 1 ∧
    getItem (prepare_xy (⟨1, 1, 0, 1⟩ : Gen) Mode.train ⟨1, 0, 0⟩ 0
      (⟨[[]], [[20]], [[10]], [[]], [[2]], [[1]], none⟩ : FeatDict ℕ ℕ)
      [5]) (-1) = some ([20, 10], [2, 1], none, 5) ∧
    lenDS (prepare_xy (⟨1, 1, 0, 1⟩ : Gen) Mode.train ⟨2, 0, 0⟩ 0
      (⟨[[]], [[20]], [[10]], [[]], [[2]], [[1]], none⟩ : FeatDict ℕ ℕ)
      [5]) = 2 ∧
    getItem (prepare_xy (⟨1, 1, 0, 1⟩ : Gen) Mode.train ⟨2, 0, 0⟩ 0
      (⟨[[]], [[20]], [[10]], [[]], [[2]], [[1]], none⟩ : FeatDict ℕ ℕ)
      [5]) 1 = none := by
  decide

/-- C9, amended: `length()` returns the configured `mode_len[mode]`
(definitionally, `lenDS`); provided the per-split tensors hold exactly
`length()` samples (which `prepare_xy` produces when the windowed input is
long enough) and any flow tensor holds one full positive-length cycle,
`get(i)` succeeds for every `0 ≤ i < length()` and fails for every
`i ≥ length()`; for `-length() ≤ i < 0` retrieval succeeds by Python
negative-index wraparound (instead of failing, as the original claim
required), and fails below `-length()`. -/
theorem C9_access_contract_amended {α γ : Type*} (ds : EMSData α γ)
    (hx : ds.x_seq.length = lenDS ds) (hm : ds.meta_seq.length = lenDS ds)
    (hy : ds.output.length = lenDS ds)
    (hfl : ds.flow = none ∨ (0 < ds.g.day_timesteps ∧
      ∀ fl, ds.flow = some fl → ds.g.day_timesteps ≤ fl.length))
    (i : ℤ) :
    (0 ≤ i → i < (lenDS ds : ℤ) → (getItem ds i).isSome = true) ∧
    ((lenDS ds : ℤ) ≤ i → getItem ds i = none) ∧
    (-(lenDS ds : ℤ) ≤ i → i < 0 → (getItem ds i).isSome = true) ∧
    (i < -(lenDS ds : ℤ) → getItem ds i = none) := by
  rcases hflow : ds.flow with _ | fl
  · have hgi : getItem ds i =
        sampleAt ds.x_seq ds.meta_seq ds.output none i := by
      simp [getItem, hflow]
    rw [hgi]
    exact sampleAt_access ds.x_seq ds.meta_seq ds.output none (lenDS ds) i
      hx hm hy
  · rcases hfl with h | ⟨hrho, hlen⟩
    · rw [h] at hflow
      cases hflow
    · obtain ⟨P, hP⟩ := Option.isSome_iff_exists.mp
        (timestamp_query_isSome ds.g fl i hrho (hlen fl hflow))
      have hgi : getItem ds i =
          sampleAt ds.x_seq ds.meta_seq ds.output (some P) i := by
        simp [getItem, hflow, hP]
      rw [hgi]
      exact sampleAt_access ds.x_seq ds.meta_seq ds.output (some P)
        (lenDS ds) i hx hm hy

/-- Witness for the amended C9, on a split with one sample and a
one-position flow cycle: the length hypotheses hold, `get(0)` succeeds and
`get(1)` fails. -/
theorem C9_access_contract_amended_witness :
    (prepare_xy (⟨1, 1, 0, 1⟩ : Gen) Mode.train ⟨1, 0, 0⟩ 0
      (⟨[[]], [[20]], [[10]], [[]], [[2]], [[1]], some [99]⟩ :
        FeatDict ℕ ℕ) [5]).x_seq.length =
      lenDS (prepare_xy (⟨1, 1, 0, 1⟩ : Gen) Mode.train ⟨1, 0, 0⟩ 0
        (⟨[[]], [[20]], [[10]], [[]], [[2]], [[1]], some [99]⟩ :
          FeatDict ℕ ℕ) [5]) ∧
    (getItem (prepare_xy (⟨1, 1, 0, 1⟩ : Gen) Mode.train ⟨1, 0, 0⟩ 0
      (⟨[[]], [[20]], [[10]], [[]], [[2]], [[1]], some [99]⟩ :
        FeatDict ℕ ℕ) [5]) 0).isSome = true ∧
    getItem (prepare_xy (⟨1, 1, 0, 1⟩ : Gen) Mode.train ⟨1, 0, 0⟩ 0
      (⟨[[]], [[20]], [[10]], [[]], [[2]], [[1]], some [99]⟩ :
        FeatDict ℕ ℕ) [5]) 1 = none := by
  have hflw : (prepare_xy (⟨1, 1, 0, 1⟩ : Gen) Mode.train ⟨1, 0, 0⟩ 0
      (⟨[[]], [[20]], [[10]], [[]], [[2]], [[1]], some [99]⟩ :
        FeatDict ℕ ℕ) [5]).flow = none ∨
      (0 < (prepare_xy (⟨1, 1, 0, 1⟩ : Gen) Mode.train ⟨1, 0, 0⟩ 0
        (⟨[[]], [[20]], [[10]], [[]], [[2]], [[1]], some [99]⟩ :
          FeatDict ℕ ℕ) [5]).g.day_timesteps ∧
        ∀ fl, (prepare_xy (⟨1, 1, 0, 1⟩ : Gen) Mode.train ⟨1, 0, 0⟩ 0
          (⟨[[]], [[20]], [[10]], [[]], [[2]], [[1]], some [99]⟩ :
            FeatDict ℕ ℕ) [5]).flow = some fl →
          (prepare_xy (⟨1, 1, 0, 1⟩ : Gen) Mode.train ⟨1, 0, 0⟩ 0
            (⟨[[]], [[20]], [[10]], [[]], [[2]], [[1]], some [99]⟩ :
              FeatDict ℕ ℕ) [5]).g.day_timesteps ≤ fl.length) := by
    refine Or.inr ⟨by decide, ?_⟩
    intro fl h
    rw [show (prepare_xy (⟨1, 1, 0, 1⟩ : Gen) Mode.train ⟨1, 0, 0⟩ 0
      (⟨[[]], [[20]], [[10]], [[]], [[2]], [[1]], some [99]⟩ :
        FeatDict ℕ ℕ) [5]).flow = some [99] from rfl] at h
    cases h
    decide
  refine ⟨by decide, ?_, ?_⟩
  · exact (C9_access_contract_amended _ (by decide) (by decide) (by decide)
      hflw 0).1 (by decide) (by decide)
  · exact (C9_access_contract_amended _ (by decide) (by decide) (by decide)
      hflw 1).2.1 (by decide)

end EMSPred
